import Mathlib

/-!
Shallow embedding of the core of `make.c` from bcache-tools: superblock
construction (`write_sb_common`), the direct write path with its signature
guard and force-reformat quiescing loop (`write_sb`), the control-channel
registration path (`write_sb_ioctl`), and the argument-level flow of
`make_bcache`.

Machine integers are modelled as `Nat`; every field involved here is far
from its overflow bound on the inputs the claims range over.  Fallible
system calls are modelled as boolean facts about the device; each
`exit(EXIT_FAILURE)` becomes an `Except.error` carrying a distinct error
naming the C exit site.
-/

namespace BcacheMake

/-! ### Fixed constants

`SB_SECTOR`, `SB_START`, `SB_LABEL_SIZE`, the `BCACHE_SB_VERSION_*` codes,
`BDEV_DATA_START_DEFAULT` and the `CACHE_MODE_*` codes are used by
`make.c` but declared in `bcache.h`, which is not under `src/`.
Modelled from the spec: they are the fixed public on-disk format constants
the spec calls "fixed offsets/sizes - bit-exact for compatibility"
(reserved superblock offset, format version codes distinguishing backing
vs cache and the offset-aware variant, default data start, cache modes). -/

def SB_SECTOR : Nat := 8

def SB_START : Nat := SB_SECTOR * 512

def SB_LABEL_SIZE : Nat := 32

def BCACHE_SB_VERSION_CDEV : Nat := 0

def BCACHE_SB_VERSION_BDEV : Nat := 1

def BCACHE_SB_VERSION_CDEV_WITH_UUID : Nat := 3

def BCACHE_SB_VERSION_BDEV_WITH_OFFSET : Nat := 4

def BDEV_DATA_START_DEFAULT : Nat := 16

def CACHE_MODE_WRITETHROUGH : Nat := 0

def CACHE_MODE_WRITEBACK : Nat := 1

def BDEVNAME_SIZE : Nat := 32

/-- The `struct sb_context` of make.c:40-50: the validated configuration handed
to the superblock builder.  The 128-bit `uuid_t set_uuid` is modelled as an
abstract `Nat`; `label` points at a string already length-validated by
`make_bcache` (make.c:682). -/
structure sb_context where
  block_size : Nat
  bucket_size : Nat
  writeback : Bool
  discard : Bool
  wipe_bcache : Bool
  cache_replacement_policy : Nat
  data_offset : Nat
  set_uuid : Nat
  label : String
deriving Repr, DecidableEq

/-- The `struct cache_sb` as populated by `write_sb_common` (make.c:242-355).
`memset(sb, 0, sizeof(struct cache_sb))` at make.c:254 is the default
value.  `magic : Bool` records whether the field holds the recognized
16-byte `bcache_magic` constant; `uuid_generate(sb->uuid)` produces a
fresh identifier irrelevant to every claim and is not modelled as data.
`cache_mode`, `cache_discard` and `replacement` stand for the
`SET_BDEV_CACHE_MODE` / `SET_CACHE_DISCARD` / `SET_CACHE_REPLACEMENT`
bitfields of `bcache.h` (not under `src/`), modelled from the spec as
plain fields of the superblock. -/
structure cache_sb where
  offset : Nat := 0
  version : Nat := 0
  magic : Bool := false
  set_uuid : Nat := 0
  label : String := ""
  block_size : Nat := 0
  bucket_size : Nat := 0
  nbuckets : Nat := 0
  nr_in_set : Nat := 0
  nr_this_dev : Nat := 0
  first_bucket : Nat := 0
  cache_mode : Nat := 0
  cache_discard : Bool := false
  replacement : Nat := 0
  data_offset : Nat := 0
deriving Repr, DecidableEq

/-- The `SB_IS_BDEV` macro (bcache.h, not under `src/`).  Modelled from the spec:
the version code distinguishes backing from cache devices, the backing
codes being the base backing variant and its offset-aware variant. -/
def SB_IS_BDEV (sb : cache_sb) : Bool :=
  sb.version == BCACHE_SB_VERSION_BDEV ||
  sb.version == BCACHE_SB_VERSION_BDEV_WITH_OFFSET

/-- One error per fatal `exit(EXIT_FAILURE)` site of `write_sb` /
`write_sb_common` (make.c:242-491). -/
inductive WsError
  | openFailed
  | detailFailed
  | notBcacheDevice
  | stopFailed
  | stillBusy
  | shortRead
  | eraseFailed
  | existingState
  | foreignSignature
  | probeInitFailed
  | insufficientBuckets
  | zeroHeadFailed
  | writeSbFailed
deriving Repr, DecidableEq

/-- The builder `write_sb_common` (make.c:242-355).  `zoned` is the result of
`is_zoned_device(dev)` (zoned.h, outside `src/`), taken as a fact about
the device; `nbuckets` is the quotient computed by the caller
(make.c:460 and make.c:547).  Returns the built superblock (or the
`Not enough buckets` failure of make.c:314-318) together with a flag
recording whether the zoned-downgrade notice of make.c:282 was printed.

Line map: the initial record is the `memset` plus make.c:256-265
(`set_bucket_size` of lib.h, outside `src/`, is modelled from the spec as
storing the configured bucket size); the backing branch is make.c:270-291;
the cache branch is make.c:307-321; the label copy is make.c:348-353. -/
def write_sb_common (zoned : Bool) (sbc : sb_context) (bdev : Bool)
    (nbuckets : Nat) : Except WsError cache_sb × Bool :=
  let base : cache_sb :=
    { offset := SB_SECTOR
      version := if bdev = true then BCACHE_SB_VERSION_BDEV
                 else BCACHE_SB_VERSION_CDEV
      magic := true
      set_uuid := sbc.set_uuid
      block_size := sbc.block_size }
  if SB_IS_BDEV base = true then
    let mode0 := if sbc.writeback = true then CACHE_MODE_WRITEBACK
                 else CACHE_MODE_WRITETHROUGH
    let noticeB := zoned && (mode0 == CACHE_MODE_WRITEBACK)
    let mode := if noticeB = true then CACHE_MODE_WRITETHROUGH else mode0
    if sbc.data_offset ≠ BDEV_DATA_START_DEFAULT then
      (Except.ok { base with
          cache_mode := mode
          version := if base.version < BCACHE_SB_VERSION_BDEV_WITH_OFFSET
                     then BCACHE_SB_VERSION_BDEV_WITH_OFFSET
                     else base.version
          data_offset := sbc.data_offset
          label := sbc.label }, noticeB)
    else
      (Except.ok { base with cache_mode := mode, label := sbc.label }, noticeB)
  else
    if nbuckets < 1 <<< 7 then
      (Except.error WsError.insufficientBuckets, false)
    else
      (Except.ok { base with
          bucket_size := sbc.bucket_size
          nbuckets := nbuckets
          nr_in_set := 1
          first_bucket := 23 / sbc.bucket_size + 1
          cache_discard := sbc.discard
          replacement := sbc.cache_replacement_policy
          label := sbc.label }, false)

/-- Accessor: did the builder succeed? -/
def buildOk (p : Except WsError cache_sb × Bool) : Bool :=
  match p.1 with
  | Except.ok _ => true
  | Except.error _ => false

/-- Accessor: the built superblock (the all-zero record when the build
failed; only used under a `buildOk` hypothesis). -/
def built (p : Except WsError cache_sb × Bool) : cache_sb :=
  match p.1 with
  | Except.ok sb => sb
  | Except.error _ => {}

/-! ### The direct write path `write_sb` (make.c:357-491) -/

/-- Result of `open(dev, O_RDWR|O_EXCL)` at make.c:368: success, failure
with `errno == 16` (`EBUSY`, make.c:371), or any other failure. -/
inductive OpenResult
  | ok
  | busy
  | otherErr
deriving Repr, DecidableEq

/-- The facts about one target device that decide every branch of
`write_sb`.  Each `...Ok : Bool` field is the success of the
corresponding system call on this device; `reopen0/1/2` are the results
of the three `open` retries of the quiescing loop (make.c:396-406);
`detailType` is the device type reported by `detail_dev` (lib.h, outside
`src/`, taken as a device fact); `probeFindsSig` is true when
`blkid_do_probe` returns 0, i.e. reports a (non-bcache) signature or
partition table (make.c:450); `sizeSectors` is `getblocks(fd)`
(make.c:59-75); `fsyncOk` is the return of `fsync(fd)` at make.c:489,
which the code never examines. -/
structure DiskDevice where
  firstOpen : OpenResult
  detailOk : Bool
  detailType : Nat
  stopOk : Bool
  reopen0 : Bool
  reopen1 : Bool
  reopen2 : Bool
  preadOk : Bool
  magicMatches : Bool
  eraseOk : Bool
  probeInitOk : Bool
  probeFindsSig : Bool
  sizeSectors : Nat
  zoned : Bool
  zeroHeadOk : Bool
  writeSbOk : Bool
  fsyncOk : Bool
deriving Repr, DecidableEq

/-- Observable actions of `write_sb` on the world, in order: the
`sleep(3)` of each quiescing retry (make.c:397), the `pwrite` of zeroes
over the old superblock (make.c:428), the best-effort `blkdiscard_all`
(make.c:467), the zeroing of the head region (make.c:479), the superblock
write (make.c:484) and the `fsync` call (make.c:489). -/
inductive WsEvent
  | sleep3
  | eraseSb
  | discardRange
  | zeroHead
  | writeSb
  | fsyncCall
deriving Repr, DecidableEq

/-- Events that modify bytes of the target device. -/
def WsEvent.isWrite : WsEvent → Bool
  | .eraseSb => true
  | .discardRange => true
  | .zeroHead => true
  | .writeSb => true
  | _ => false

instance {ε α : Type} [DecidableEq ε] [DecidableEq α] :
    DecidableEq (Except ε α) := fun a b =>
  match a, b with
  | Except.ok x, Except.ok y =>
    if h : x = y then Decidable.isTrue (h ▸ rfl)
    else Decidable.isFalse (fun hh => h (Except.ok.inj hh))
  | Except.error x, Except.error y =>
    if h : x = y then Decidable.isTrue (h ▸ rfl)
    else Decidable.isFalse (fun hh => h (Except.error.inj hh))
  | Except.ok _, Except.error _ =>
    Decidable.isFalse (fun hh => Except.noConfusion hh)
  | Except.error _, Except.ok _ =>
    Decidable.isFalse (fun hh => Except.noConfusion hh)

/-- Outcome of one `write_sb` run: the final superblock (or the fatal
error), the events performed, and whether the zoned-downgrade notice was
printed. -/
structure WsResult where
  outcome : Except WsError cache_sb
  events : List WsEvent
  zonedNotice : Bool
deriving Repr, DecidableEq

/-- Accessor: did the run report success? -/
def wsOk (r : WsResult) : Bool :=
  match r.outcome with
  | Except.ok _ => true
  | Except.error _ => false

/-- Accessor: the superblock of a successful run (all-zero record
otherwise; only used under a `wsOk` hypothesis). -/
def wsSb (r : WsResult) : cache_sb :=
  match r.outcome with
  | Except.ok sb => sb
  | Except.error _ => {}

/-- The `for (i = 0; i < 3; i++) { sleep(3); fd = open(dev, ...); ... }`
loop of make.c:396-406, unrolled (each iteration sleeps 3 time units and
then attempts the exclusive open; a success breaks out).  The payload
`Bool` is the validity of `fd` after the loop.  `bool opened`
(make.c:394) is declared WITHOUT an initializer: when no attempt
succeeds, `opened` keeps its indeterminate stack value, modelled by the
`garbageOpened` parameter; the `if (!opened)` abort of make.c:407-412 -
the "still busy" error - therefore only fires when that garbage value is
falsy, and otherwise the caller continues with `fd == -1`. -/
def waitForRelease (d : DiskDevice) (garbageOpened : Bool) :
    Except WsError Bool × List WsEvent :=
  if d.reopen0 = true then (Except.ok true, [WsEvent.sleep3])
  else if d.reopen1 = true then
    (Except.ok true, [WsEvent.sleep3, WsEvent.sleep3])
  else if d.reopen2 = true then
    (Except.ok true, [WsEvent.sleep3, WsEvent.sleep3, WsEvent.sleep3])
  else if garbageOpened = true then
    (Except.ok false, [WsEvent.sleep3, WsEvent.sleep3, WsEvent.sleep3])
  else
    (Except.error WsError.stillBusy,
     [WsEvent.sleep3, WsEvent.sleep3, WsEvent.sleep3])

/-- The exclusive-open phase of `write_sb` (make.c:368-418).  On
`EBUSY` with `--force`, `detail_dev` classifies the busy device; a
backing device gets `stop_backdev`, a cache device (either version code)
gets `unregister_cset` (both from lib.h, outside `src/`; `stopOk` is the
success of the issued request), any other type is fatal; then the
release wait loop runs.  `EBUSY` without `--force`, or any other open
failure, is immediately fatal (make.c:413-417). -/
def openPhase (d : DiskDevice) (force garbageOpened : Bool) :
    Except WsError Bool × List WsEvent :=
  match d.firstOpen with
  | OpenResult.ok => (Except.ok true, [])
  | OpenResult.otherErr => (Except.error WsError.openFailed, [])
  | OpenResult.busy =>
    if force = false then (Except.error WsError.openFailed, [])
    else if d.detailOk = false then (Except.error WsError.detailFailed, [])
    else if d.detailType = BCACHE_SB_VERSION_BDEV then
      if d.stopOk = true then waitForRelease d garbageOpened
      else (Except.error WsError.stopFailed, [])
    else if d.detailType = BCACHE_SB_VERSION_CDEV ∨
            d.detailType = BCACHE_SB_VERSION_CDEV_WITH_UUID then
      if d.stopOk = true then waitForRelease d garbageOpened
      else (Except.error WsError.stopFailed, [])
    else (Except.error WsError.notBcacheDevice, [])

/-- The tail of `write_sb` after the signature guard (make.c:442-491):
blkid probe initialization (the three calls of make.c:442-449, collapsed
into one success fact since each failure is the same bare exit), the
foreign-signature check (make.c:450-456), the bucket-count computation
`nbuckets = getblocks(fd) / sbc->bucket_size` (make.c:460), the builder,
the best-effort discard for cache devices (make.c:464-468), the
head-region zeroing, the superblock write, and the unchecked `fsync`.
`write_sb_tail` is what happens once the builder result `bc` is in hand
(make.c:464-491): best-effort discard for cache devices, the two fatal
short-write checks, and the final event order. -/
def write_sb_tail (d : DiskDevice) (sbc : sb_context) (ev : List WsEvent)
    (bc : Except WsError cache_sb × Bool) : WsResult :=
  match bc with
  | (Except.error e, notice) => ⟨Except.error e, ev, notice⟩
  | (Except.ok sb, notice) =>
    if d.zeroHeadOk = false then
      ⟨Except.error WsError.zeroHeadFailed,
       ev ++ (if SB_IS_BDEV sb = false ∧ sbc.discard = true
              then [WsEvent.discardRange] else []), notice⟩
    else if d.writeSbOk = false then
      ⟨Except.error WsError.writeSbFailed,
       ev ++ (if SB_IS_BDEV sb = false ∧ sbc.discard = true
              then [WsEvent.discardRange] else []) ++ [WsEvent.zeroHead],
       notice⟩
    else
      ⟨Except.ok sb,
       ev ++ (if SB_IS_BDEV sb = false ∧ sbc.discard = true
              then [WsEvent.discardRange] else [])
          ++ [WsEvent.zeroHead, WsEvent.writeSb, WsEvent.fsyncCall],
       notice⟩

/-- The probe and build phase feeding `write_sb_tail`: blkid probe
initialization, the foreign-signature exit, the quotient
`nbuckets = getblocks(fd) / sbc->bucket_size` (make.c:460) and the call
to `write_sb_common` (make.c:462). -/
def write_sb_rest (d : DiskDevice) (sbc : sb_context) (bdev : Bool)
    (ev : List WsEvent) : WsResult :=
  if d.probeInitOk = false then
    ⟨Except.error WsError.probeInitFailed, ev, false⟩
  else if d.probeFindsSig = true then
    ⟨Except.error WsError.foreignSignature, ev, false⟩
  else
    write_sb_tail d sbc ev
      (write_sb_common d.zoned sbc bdev (d.sizeSectors / sbc.bucket_size))

/-- The body of `write_sb` (make.c:357-491) after the open phase.  First,
`if (force) wipe_bcache = true;` (make.c:420-421); the `pread` of the
reserved region (make.c:423, a short read is a bare fatal exit - in
particular this is the first call to fail when the quiescing loop fell
through with `fd == -1`); the signature guard (make.c:426-441): a
recognized magic is erased when wiping, else fatal `ExistingState`;
then `write_sb_rest`. -/
def write_sb_afterOpen (d : DiskDevice) (sbc : sb_context)
    (bdev force : Bool) (op : Except WsError Bool × List WsEvent) :
    WsResult :=
  match op with
  | (Except.error e, ev) => ⟨Except.error e, ev, false⟩
  | (Except.ok fdValid, ev) =>
    if (fdValid && d.preadOk) = false then
      ⟨Except.error WsError.shortRead, ev, false⟩
    else if d.magicMatches = true then
      if (if force = true then true else sbc.wipe_bcache) = true then
        if d.eraseOk = true then
          write_sb_rest d sbc bdev (ev ++ [WsEvent.eraseSb])
        else ⟨Except.error WsError.eraseFailed, ev, false⟩
      else ⟨Except.error WsError.existingState, ev, false⟩
    else write_sb_rest d sbc bdev ev

def write_sb (d : DiskDevice) (sbc : sb_context) (bdev force : Bool)
    (garbageOpened : Bool) : WsResult :=
  write_sb_afterOpen d sbc bdev force (openPhase d force garbageOpened)

/-! ### The control-channel path `write_sb_ioctl` (make.c:508-556) -/

/-- Fatal exits of `write_sb_ioctl`, one per `exit(EXIT_FAILURE)` site. -/
inductive IoctlError
  | devNotFound
  | statFailed
  | notBlockDevice
  | ctrlOpenFailed
  | buildFailed (e : WsError)
  | ioctlFailed
deriving Repr, DecidableEq

/-- The `struct bch_register_device` of make.c:496-499: the fixed-size record
submitted through the control channel. -/
structure bch_register_device where
  dev_name : String
  sb : cache_sb
deriving Repr, DecidableEq

/-- Facts about the target of `write_sb_ioctl`: whether `open(dev, 0)`
succeeds, the device size in sectors (`getblocks`), whether `stat`
succeeds and reports a block device, whether `/dev/bcache_ctrl` opens,
the zoned classification fed to the builder, and whether the
`BCH_IOCTL_REGISTER_DEVICE` call returns success. -/
structure IoctlDevice where
  found : Bool
  sizeSectors : Nat
  statOk : Bool
  isBlk : Bool
  ctrlOpenOk : Bool
  zoned : Bool
  ioctlOk : Bool
deriving Repr, DecidableEq

/-- Outcome of `write_sb_ioctl`: final status plus the record actually
submitted through the channel (`none` when the run exits before the
`ioctl` call). -/
structure IoctlResult where
  outcome : Except IoctlError Unit
  submitted : Option bch_register_device
deriving Repr, DecidableEq

/-- The registrar `write_sb_ioctl` (make.c:508-556): validity checks on the core
device, open of the control device, `strncpy` of the bounded device
name, the builder with `dev_blocks / sbc->bucket_size`, and submission;
a failing `ioctl` is fatal but the record has been submitted. -/
def write_sb_ioctl (d : IoctlDevice) (name : String) (sbc : sb_context)
    (bdev : Bool) : IoctlResult :=
  if d.found = false then ⟨Except.error IoctlError.devNotFound, none⟩
  else if d.statOk = false then ⟨Except.error IoctlError.statFailed, none⟩
  else if d.isBlk = false then
    ⟨Except.error IoctlError.notBlockDevice, none⟩
  else if d.ctrlOpenOk = false then
    ⟨Except.error IoctlError.ctrlOpenFailed, none⟩
  else
    match write_sb_common d.zoned sbc bdev (d.sizeSectors / sbc.bucket_size) with
    | (Except.error e, _) => ⟨Except.error (IoctlError.buildFailed e), none⟩
    | (Except.ok sb, _) =>
      if d.ioctlOk = true then
        ⟨Except.ok (), some ⟨name.take (BDEVNAME_SIZE - 1), sb⟩⟩
      else
        ⟨Except.error IoctlError.ioctlFailed,
         some ⟨name.take (BDEVNAME_SIZE - 1), sb⟩⟩

/-- One iteration of the backing-device loop of `make_bcache` on the
ioctl path (make.c:747-756).  `zonedAdjust` stands for
`check_data_offset_for_zoned_device` (zoned.h, outside `src/`).
Modelled from the spec: the spec keeps only the decision zoned
classification feeds in scope, so the adjustment the external call makes
to the configured data offset is an arbitrary function - every claim
about this path holds for all of them.  Returns whether the
`data_offset must be 0` warning was printed, together with the
`write_sb_ioctl` outcome run on the configuration whose data offset has
been forced to zero (make.c:755). -/
def backing_ioctl_step (zonedAdjust : Nat → Nat) (d : IoctlDevice)
    (name : String) (sbc : sb_context) : Bool × IoctlResult :=
  let sbc1 : sb_context := { sbc with data_offset := zonedAdjust sbc.data_offset }
  let warn := sbc1.data_offset != 0
  let sbc2 : sb_context := { sbc1 with data_offset := 0 }
  (warn, write_sb_ioctl d name sbc2 true)

/-! ### Argument-level flow of `make_bcache` (make.c:600-763) -/

/-- Fatal exits of the validation section of `make_bcache`
(make.c:704-718). -/
inductive MkError
  | noDevice
  | tooManyCacheDevices
  | bucketSmallerThanBlock
deriving Repr, DecidableEq

/-- The option-parsing outcome of `make_bcache` that the claims range
over: the `-w` block size (0 when absent, make.c:607), the `-b` bucket
size (default 1024), and the two device lists in command-line order.
A device is represented by its native block size in sectors, the value
`get_blocksize` (make.c:558-598) would report for it. -/
structure MkArgs where
  block_size : Nat
  bucket_size : Nat
  cacheDevs : List Nat
  backingDevs : List Nat
deriving Repr, DecidableEq

/-- The configuration `make_bcache` settles on before the per-device
format loops (make.c:730-760): final block and bucket sizes and the two
device lists, processed cache devices first. -/
structure MkPlan where
  block_size : Nat
  bucket_size : Nat
  cacheDevs : List Nat
  backingDevs : List Nat
deriving Repr, DecidableEq

/-- Validation and block-size resolution of `make_bcache`
(make.c:704-760), in source order: no device (make.c:704), more than one
cache device (make.c:709), `bucket_size < block_size` (make.c:714, note:
checked BEFORE the derivation below), then - only if `-w` was absent -
derivation of the block size as the maximum of the native block sizes of
all devices (make.c:720-728).  The second component lists the devices
whose native block size was queried (each such query opens the device);
it is empty on every fatal validation exit. -/
def make_bcache (a : MkArgs) : Except MkError MkPlan × List Nat :=
  if a.cacheDevs.length = 0 ∧ a.backingDevs.length = 0 then
    (Except.error MkError.noDevice, [])
  else if 1 < a.cacheDevs.length then
    (Except.error MkError.tooManyCacheDevices, [])
  else if a.bucket_size < a.block_size then
    (Except.error MkError.bucketSmallerThanBlock, [])
  else if a.block_size = 0 then
    (Except.ok
      { block_size := (a.cacheDevs ++ a.backingDevs).foldl max 0
        bucket_size := a.bucket_size
        cacheDevs := a.cacheDevs
        backingDevs := a.backingDevs },
     a.cacheDevs ++ a.backingDevs)
  else
    (Except.ok
      { block_size := a.block_size
        bucket_size := a.bucket_size
        cacheDevs := a.cacheDevs
        backingDevs := a.backingDevs },
     [])

/-- Accessor: did validation succeed? -/
def mkOk (p : Except MkError MkPlan × List Nat) : Bool :=
  match p.1 with
  | Except.ok _ => true
  | Except.error _ => false

/-- Accessor: the accepted plan (a zero plan on validation failure; only
used under an `mkOk` hypothesis). -/
def mkPlan (p : Except MkError MkPlan × List Nat) : MkPlan :=
  match p.1 with
  | Except.ok pl => pl
  | Except.error _ => ⟨0, 0, [], []⟩

/-! ### Concrete sample values used by witnesses and counterexamples -/

/-- Default configuration of `make_bcache`: derived block size 8 sectors,
bucket size 1024 sectors, every flag off, data offset at the default. -/
def sbc0 : sb_context :=
  { block_size := 8, bucket_size := 1024, writeback := false
    discard := false, wipe_bcache := false, cache_replacement_policy := 0
    data_offset := BDEV_DATA_START_DEFAULT, set_uuid := 0, label := "" }

/-- A clean, healthy 512 MiB device: opens exclusively, no prior bcache
superblock, no foreign signature, every write succeeds. -/
def devClean : DiskDevice :=
  { firstOpen := OpenResult.ok, detailOk := true, detailType := 0
    stopOk := true, reopen0 := false, reopen1 := false, reopen2 := false
    preadOk := true, magicMatches := false, eraseOk := true
    probeInitOk := true, probeFindsSig := false
    sizeSectors := 1048576, zoned := false
    zeroHeadOk := true, writeSbOk := true, fsyncOk := true }

/-! ### Helper lemmas -/

/-- Every branch of `write_sb_tail` only appends to the event list it was
handed. -/
theorem write_sb_tail_events_extend (d : DiskDevice) (sbc : sb_context)
    (ev : List WsEvent) (bc : Except WsError cache_sb × Bool) :
    ∃ t, (write_sb_tail d sbc ev bc).events = ev ++ t := by
  rcases bc with ⟨o, n⟩
  rcases o with e | sb
  · exact ⟨[], by simp [write_sb_tail]⟩
  · by_cases hz : d.zeroHeadOk = false
    · exact ⟨(if SB_IS_BDEV sb = false ∧ sbc.discard = true
              then [WsEvent.discardRange] else []),
        by simp [write_sb_tail, hz]⟩
    · by_cases hw : d.writeSbOk = false
      · exact ⟨(if SB_IS_BDEV sb = false ∧ sbc.discard = true
                then [WsEvent.discardRange] else []) ++ [WsEvent.zeroHead],
          by simp [write_sb_tail, hz, hw]⟩
      · exact ⟨(if SB_IS_BDEV sb = false ∧ sbc.discard = true
                then [WsEvent.discardRange] else [])
              ++ [WsEvent.zeroHead, WsEvent.writeSb, WsEvent.fsyncCall],
          by simp [write_sb_tail, hz, hw]⟩

/-- Every branch of `write_sb_rest` only appends to the event list it was
handed. -/
theorem write_sb_rest_events_extend (d : DiskDevice) (sbc : sb_context)
    (bdev : Bool) (ev : List WsEvent) :
    ∃ t, (write_sb_rest d sbc bdev ev).events = ev ++ t := by
  unfold write_sb_rest
  by_cases h1 : d.probeInitOk = false
  · exact ⟨[], by simp [h1]⟩
  · by_cases h2 : d.probeFindsSig = true
    · exact ⟨[], by simp [h1, h2]⟩
    · simpa [h1, h2] using
        write_sb_tail_events_extend d sbc ev
          (write_sb_common d.zoned sbc bdev (d.sizeSectors / sbc.bucket_size))

/-- A successful `write_sb_tail` run implies both writes completed in
full and the event trace ends with head zeroing, superblock write and
the fsync call. -/
theorem write_sb_tail_ok_inv (d : DiskDevice) (sbc : sb_context)
    (ev : List WsEvent) (bc : Except WsError cache_sb × Bool)
    (sb : cache_sb)
    (h : (write_sb_tail d sbc ev bc).outcome = Except.ok sb) :
    d.zeroHeadOk = true ∧ d.writeSbOk = true ∧
    ∃ t, (write_sb_tail d sbc ev bc).events =
      t ++ [WsEvent.zeroHead, WsEvent.writeSb, WsEvent.fsyncCall] := by
  rcases bc with ⟨o, n⟩
  rcases o with e | sb'
  · simp [write_sb_tail] at h
  · by_cases hz : d.zeroHeadOk = false
    · simp [write_sb_tail, hz] at h
    · by_cases hw : d.writeSbOk = false
      · simp [write_sb_tail, hz, hw] at h
      · refine ⟨by simpa using hz, by simpa using hw, ?_⟩
        exact ⟨ev ++ (if SB_IS_BDEV sb' = false ∧ sbc.discard = true
                      then [WsEvent.discardRange] else []),
          by simp [write_sb_tail, hz, hw]⟩

/-- A successful `write_sb_rest` run implies the probe was initialized,
found no signature, both writes completed in full, and the event trace
ends with the head zeroing, the superblock write and the fsync call. -/
theorem write_sb_rest_ok_inv (d : DiskDevice) (sbc : sb_context)
    (bdev : Bool) (ev : List WsEvent) (sb : cache_sb)
    (h : (write_sb_rest d sbc bdev ev).outcome = Except.ok sb) :
    d.probeInitOk = true ∧ d.probeFindsSig = false ∧
    d.zeroHeadOk = true ∧ d.writeSbOk = true ∧
    ∃ t, (write_sb_rest d sbc bdev ev).events =
      t ++ [WsEvent.zeroHead, WsEvent.writeSb, WsEvent.fsyncCall] := by
  unfold write_sb_rest at h ⊢
  by_cases h1 : d.probeInitOk = false
  · simp [h1] at h
  · by_cases h2 : d.probeFindsSig = true
    · simp [h1, h2] at h
    · simp only [h1, h2, if_false] at h ⊢
      have := write_sb_tail_ok_inv d sbc ev
        (write_sb_common d.zoned sbc bdev (d.sizeSectors / sbc.bucket_size))
        sb h
      refine ⟨?_, ?_, this.1, this.2.1, this.2.2⟩ <;> trivial

/-- A successful `write_sb_afterOpen` run implies: the region read
succeeded, a recognized prior superblock was erased only because wiping
was allowed, no foreign signature was found, both final writes completed
in full, and the trace ends with head zeroing, superblock write and the
fsync call. -/
theorem write_sb_afterOpen_ok_inv (d : DiskDevice) (sbc : sb_context)
    (bdev force : Bool) (op : Except WsError Bool × List WsEvent)
    (sb : cache_sb)
    (h : (write_sb_afterOpen d sbc bdev force op).outcome = Except.ok sb) :
    d.preadOk = true ∧
    (d.magicMatches = true → d.eraseOk = true) ∧
    d.probeInitOk = true ∧ d.probeFindsSig = false ∧
    d.zeroHeadOk = true ∧ d.writeSbOk = true ∧
    ∃ t, (write_sb_afterOpen d sbc bdev force op).events =
      t ++ [WsEvent.zeroHead, WsEvent.writeSb, WsEvent.fsyncCall] := by
  rcases op with ⟨o, ev⟩
  rcases o with e | fdValid
  · simp [write_sb_afterOpen] at h
  · by_cases hp : (fdValid && d.preadOk) = false
    · simp [write_sb_afterOpen, hp] at h
    · have hpread : d.preadOk = true := by
        rcases hb : d.preadOk with _ | _
        · rw [hb] at hp; simp at hp
        · rfl
      by_cases hm : d.magicMatches = true
      · by_cases hwipe : (if force = true then true else sbc.wipe_bcache) = true
        · by_cases he : d.eraseOk = true
          · have heq : write_sb_afterOpen d sbc bdev force
                (Except.ok fdValid, ev) =
                write_sb_rest d sbc bdev (ev ++ [WsEvent.eraseSb]) := by
              simp [write_sb_afterOpen, hp, hm, hwipe, he]
            rw [heq] at h ⊢
            have := write_sb_rest_ok_inv d sbc bdev
              (ev ++ [WsEvent.eraseSb]) sb h
            exact ⟨hpread, fun _ => he, this.1, this.2.1, this.2.2.1,
              this.2.2.2.1, this.2.2.2.2⟩
          · simp [write_sb_afterOpen, hp, hm, hwipe, he] at h
        · simp [write_sb_afterOpen, hp, hm, hwipe] at h
      · have hmf : d.magicMatches = false := by
          rcases hb : d.magicMatches with _ | _
          · rfl
          · exact absurd hb hm
        have heq : write_sb_afterOpen d sbc bdev force
            (Except.ok fdValid, ev) = write_sb_rest d sbc bdev ev := by
          simp [write_sb_afterOpen, hp, hmf]
        rw [heq] at h ⊢
        have := write_sb_rest_ok_inv d sbc bdev ev sb h
        exact ⟨hpread, fun hc => absurd hc hm, this.1, this.2.1,
          this.2.2.1, this.2.2.2.1, this.2.2.2.2⟩

/-- A successful `write_sb` run implies: the region read succeeded, a
recognized prior superblock was erased only because wiping was allowed,
no foreign signature was found, both final writes completed in full, and
the trace ends with head zeroing, superblock write and the fsync call. -/
theorem write_sb_ok_inv (d : DiskDevice) (sbc : sb_context)
    (bdev force g : Bool) (sb : cache_sb)
    (h : (write_sb d sbc bdev force g).outcome = Except.ok sb) :
    d.preadOk = true ∧
    (d.magicMatches = true → d.eraseOk = true) ∧
    d.probeInitOk = true ∧ d.probeFindsSig = false ∧
    d.zeroHeadOk = true ∧ d.writeSbOk = true ∧
    ∃ t, (write_sb d sbc bdev force g).events =
      t ++ [WsEvent.zeroHead, WsEvent.writeSb, WsEvent.fsyncCall] := by
  unfold write_sb at h ⊢
  exact write_sb_afterOpen_ok_inv d sbc bdev force
    (openPhase d force g) sb h

/-- Shape of the builder result for a cache device with enough buckets
(make.c:307-345). -/
theorem write_sb_common_cdev (zoned : Bool) (sbc : sb_context) (nb : Nat)
    (h : ¬ nb < 128) :
    write_sb_common zoned sbc false nb =
      (Except.ok
        { offset := SB_SECTOR
          version := BCACHE_SB_VERSION_CDEV
          magic := true
          set_uuid := sbc.set_uuid
          label := sbc.label
          block_size := sbc.block_size
          bucket_size := sbc.bucket_size
          nbuckets := nb
          nr_in_set := 1
          nr_this_dev := 0
          first_bucket := 23 / sbc.bucket_size + 1
          cache_mode := 0
          cache_discard := sbc.discard
          replacement := sbc.cache_replacement_policy
          data_offset := 0 }, false) := by
  simp [write_sb_common, SB_IS_BDEV, BCACHE_SB_VERSION_CDEV,
    BCACHE_SB_VERSION_BDEV, BCACHE_SB_VERSION_BDEV_WITH_OFFSET,
    show (1 <<< 7 : Nat) = 128 from rfl, h]

/-- Shape of the builder result for a cache device with too few buckets
(make.c:314-318). -/
theorem write_sb_common_cdev_fail (zoned : Bool) (sbc : sb_context)
    (nb : Nat) (h : nb < 128) :
    write_sb_common zoned sbc false nb =
      (Except.error WsError.insufficientBuckets, false) := by
  simp [write_sb_common, SB_IS_BDEV, BCACHE_SB_VERSION_CDEV,
    BCACHE_SB_VERSION_BDEV, BCACHE_SB_VERSION_BDEV_WITH_OFFSET,
    show (1 <<< 7 : Nat) = 128 from rfl, h]

/-! ### Claims -/

/-- Claim C1: in `write_sb`, a device whose reserved region begins with
the recognized magic is fatal `ExistingState` with no byte of the device
modified when both the wipe flag and the force flag are false
(make.c:435-440); with wipe (or force, which implies wipe, make.c:420)
it proceeds to overwrite, erasing the old superblock (make.c:427-434);
and a device on which the generic signature probe reports a foreign
signature never formats successfully, regardless of wipe or force
(make.c:450-456). -/
theorem claim_C1 :
    (∀ (d : DiskDevice) (sbc : sb_context) (bdev g : Bool),
       d.firstOpen = OpenResult.ok → d.preadOk = true →
       d.magicMatches = true → sbc.wipe_bcache = false →
       (write_sb d sbc bdev false g).outcome =
         Except.error WsError.existingState ∧
       (write_sb d sbc bdev false g).events = []) ∧
    (∀ (d : DiskDevice) (sbc : sb_context) (bdev force g : Bool),
       d.firstOpen = OpenResult.ok → d.preadOk = true →
       d.magicMatches = true → d.eraseOk = true →
       (sbc.wipe_bcache = true ∨ force = true) →
       WsEvent.eraseSb ∈ (write_sb d sbc bdev force g).events) ∧
    (∀ (d : DiskDevice) (sbc : sb_context) (bdev force g : Bool),
       d.probeFindsSig = true →
       wsOk (write_sb d sbc bdev force g) = false) := by
  refine ⟨?_, ?_, ?_⟩
  · intro d sbc bdev g h1 h2 h3 h4
    simp [write_sb, openPhase, h1, write_sb_afterOpen, h2, h3, h4]
  · intro d sbc bdev force g h1 h2 h3 h4 h5
    have hwipe : (if force = true then true else sbc.wipe_bcache) = true := by
      rcases h5 with h5 | h5
      · cases force <;> simp [h5]
      · simp [h5]
    have heq : write_sb d sbc bdev force g =
        write_sb_rest d sbc bdev [WsEvent.eraseSb] := by
      simp [write_sb, openPhase, h1, write_sb_afterOpen, h2, h3, hwipe, h4]
    rw [heq]
    obtain ⟨t, ht⟩ := write_sb_rest_events_extend d sbc bdev [WsEvent.eraseSb]
    rw [ht]
    simp
  · intro d sbc bdev force g hfs
    rcases hres : (write_sb d sbc bdev force g).outcome with e | sb
    · unfold wsOk
      rw [hres]
    · have := (write_sb_ok_inv d sbc bdev force g sb hres).2.2.2.1
      rw [hfs] at this
      exact absurd this (by simp)

/-- Witness for C1 at concrete inputs: a device holding the recognized
magic with wipe and force off exits `ExistingState` untouched; the same
device with wipe on has its old superblock erased; a device with a
foreign signature never formats. -/
theorem claim_C1_witness :
    ((write_sb { devClean with magicMatches := true } sbc0 false false false).outcome =
       Except.error WsError.existingState ∧
     (write_sb { devClean with magicMatches := true } sbc0 false false false).events = []) ∧
    (WsEvent.eraseSb ∈
      (write_sb { devClean with magicMatches := true }
        { sbc0 with wipe_bcache := true } false false false).events) ∧
    (wsOk (write_sb { devClean with probeFindsSig := true } sbc0 false false false) =
      false) :=
  ⟨claim_C1.1 { devClean with magicMatches := true } sbc0 false false
     rfl rfl rfl rfl,
   claim_C1.2.1 { devClean with magicMatches := true }
     { sbc0 with wipe_bcache := true } false false false
     rfl rfl rfl rfl (Or.inl rfl),
   claim_C1.2.2 { devClean with probeFindsSig := true } sbc0 false false
     false rfl⟩

/-- Claim C2: for every cache-device format with device size S sectors
and bucket size B sectors, `write_sb` computes the bucket count as
S / B (integer division, make.c:460); a quotient below 128 is the fatal
insufficient-buckets error (make.c:314-318), and a quotient of at least
128 yields a superblock whose bucket count is exactly that quotient
(make.c:309). -/
theorem claim_C2 :
    (∀ (d : DiskDevice) (sbc : sb_context) (force g : Bool),
       d.firstOpen = OpenResult.ok → d.preadOk = true →
       d.magicMatches = false → d.probeInitOk = true →
       d.probeFindsSig = false → 0 < sbc.bucket_size →
       d.sizeSectors / sbc.bucket_size < 128 →
       (write_sb d sbc false force g).outcome =
         Except.error WsError.insufficientBuckets) ∧
    (∀ (d : DiskDevice) (sbc : sb_context) (force g : Bool),
       d.firstOpen = OpenResult.ok → d.preadOk = true →
       d.magicMatches = false → d.probeInitOk = true →
       d.probeFindsSig = false → d.zeroHeadOk = true → d.writeSbOk = true →
       0 < sbc.bucket_size →
       128 ≤ d.sizeSectors / sbc.bucket_size →
       wsOk (write_sb d sbc false force g) = true ∧
       (wsSb (write_sb d sbc false force g)).nbuckets =
         d.sizeSectors / sbc.bucket_size) := by
  constructor
  · intro d sbc force g h1 h2 h3 h4 h5 hb hq
    have heq : write_sb d sbc false force g =
        write_sb_tail d sbc []
          (write_sb_common d.zoned sbc false (d.sizeSectors / sbc.bucket_size)) := by
      simp [write_sb, openPhase, h1, write_sb_afterOpen, h2, h3,
        write_sb_rest, h4, h5]
    rw [heq, write_sb_common_cdev_fail d.zoned sbc _ hq]
    simp [write_sb_tail]
  · intro d sbc force g h1 h2 h3 h4 h5 h6 h7 hb hq
    have heq : write_sb d sbc false force g =
        write_sb_tail d sbc []
          (write_sb_common d.zoned sbc false (d.sizeSectors / sbc.bucket_size)) := by
      simp [write_sb, openPhase, h1, write_sb_afterOpen, h2, h3,
        write_sb_rest, h4, h5]
    rw [heq, write_sb_common_cdev d.zoned sbc _ (by omega)]
    simp [write_sb_tail, h6, h7, wsOk, wsSb]

/-- Witness for C2 at concrete inputs: a 127-bucket device fails with
the insufficient-buckets error, and a 1024-bucket device succeeds with
bucket count exactly 1024. -/
theorem claim_C2_witness :
    ((write_sb { devClean with sizeSectors := 130048 } sbc0 false false false).outcome =
       Except.error WsError.insufficientBuckets) ∧
    (wsOk (write_sb devClean sbc0 false false false) = true ∧
     (wsSb (write_sb devClean sbc0 false false false)).nbuckets =
       devClean.sizeSectors / sbc0.bucket_size) :=
  ⟨claim_C2.1 { devClean with sizeSectors := 130048 } sbc0 false false
     rfl rfl rfl rfl rfl (by decide) (by decide),
   claim_C2.2 devClean sbc0 false false
     rfl rfl rfl rfl rfl rfl rfl (by decide) (by decide)⟩

/-- Device for C3: busy on first exclusive open, classified by
`detail_dev` as a backing device, stop request succeeds, and all three
reopen attempts of the release wait loop fail. -/
def dC3 : DiskDevice :=
  { devClean with
    firstOpen := OpenResult.busy
    detailType := BCACHE_SB_VERSION_BDEV }

/-- Claim C3 (code bug, evaluated at the failing input): with `--force`
on a busy backing device whose stop succeeds, the loop makes exactly 3
attempts, each preceded by a 3-unit sleep.  But `bool opened`
(make.c:394) is uninitialized: when every attempt fails and the stack
garbage read by `if (!opened)` is truthy, the distinct "still busy"
abort of make.c:407-412 is skipped and the run instead dies through the
bare `pread` failure on `fd == -1` (make.c:423-424) with no message -
contradicting the claim that exhausting the attempts always aborts with
the distinct "still busy" error.  When the garbage happens to be falsy
the intended "still busy" abort fires, and when some attempt succeeds
the run proceeds to format (here: 2 sleeps, then the writes). -/
theorem claim_C3_bug :
    ((write_sb dC3 sbc0 true true true).outcome =
       Except.error WsError.shortRead ∧
     (write_sb dC3 sbc0 true true true).events =
       [WsEvent.sleep3, WsEvent.sleep3, WsEvent.sleep3]) ∧
    ((write_sb dC3 sbc0 true true false).outcome =
       Except.error WsError.stillBusy ∧
     (write_sb dC3 sbc0 true true false).events =
       [WsEvent.sleep3, WsEvent.sleep3, WsEvent.sleep3]) ∧
    (wsOk (write_sb { dC3 with reopen1 := true } sbc0 true true true) = true ∧
     (write_sb { dC3 with reopen1 := true } sbc0 true true true).events =
       [WsEvent.sleep3, WsEvent.sleep3, WsEvent.zeroHead, WsEvent.writeSb,
        WsEvent.fsyncCall]) :=
  ⟨⟨rfl, rfl⟩, ⟨rfl, rfl⟩, ⟨rfl, rfl⟩⟩

/-- Claim C4 (amended): the direct write path issues the synchronous
flush after the superblock write and before reporting success, and any
short read or short write at any step is fatal; the return value of
`fsync` (make.c:489) is however never examined, so a flush failure alone
does not prevent success (see the counterexample). -/
theorem claim_C4 (d : DiskDevice) (sbc : sb_context) (bdev force g : Bool)
    (sb : cache_sb)
    (h : (write_sb d sbc bdev force g).outcome = Except.ok sb) :
    d.preadOk = true ∧
    (d.magicMatches = true → d.eraseOk = true) ∧
    d.zeroHeadOk = true ∧ d.writeSbOk = true ∧
    ∃ t, (write_sb d sbc bdev force g).events =
      t ++ [WsEvent.zeroHead, WsEvent.writeSb, WsEvent.fsyncCall] := by
  have hi := write_sb_ok_inv d sbc bdev force g sb h
  exact ⟨hi.1, hi.2.1, hi.2.2.2.2.1, hi.2.2.2.2.2.1, hi.2.2.2.2.2.2⟩

/-- The superblock `write_sb` produces for a clean backing device under
the default configuration. -/
def sbW4 : cache_sb :=
  { offset := 8, version := 1, magic := true, set_uuid := 0, label := ""
    block_size := 8 }

/-- Witness for C4 on a clean backing device: the run succeeds, and its
trace ends with head zeroing, superblock write and the fsync call. -/
theorem claim_C4_witness :
    devClean.preadOk = true ∧
    (devClean.magicMatches = true → devClean.eraseOk = true) ∧
    devClean.zeroHeadOk = true ∧ devClean.writeSbOk = true ∧
    ∃ t, (write_sb devClean sbc0 true false false).events =
      t ++ [WsEvent.zeroHead, WsEvent.writeSb, WsEvent.fsyncCall] :=
  claim_C4 devClean sbc0 true false false sbW4 rfl

/-- A clean device on which the `fsync` at make.c:489 fails. -/
def dC4 : DiskDevice := { devClean with fsyncOk := false }

/-- Counterexample to C4 as stated: `write_sb` reports success on a
device whose flush fails, because the return value of `fsync` is
ignored (make.c:489-490). -/
theorem claim_C4_cex :
    dC4.fsyncOk = false ∧ wsOk (write_sb dC4 sbc0 true false false) = true :=
  ⟨rfl, rfl⟩

/-- Configuration produced by `make-bcache -C -b 512 <dev>` on a device
whose native logical block size is 4096 bytes (8 sectors): bucket size
1 sector from `-b 512`, block size 8 sectors derived at make.c:720-728
AFTER the `bucket_size < block_size` check at make.c:714 already passed
against the unset value 0. -/
def sbcC5 : sb_context := { sbc0 with bucket_size := 1 }

/-- A clean 256-sector cache device for the C5 run. -/
def devC5 : DiskDevice := { devClean with sizeSectors := 256 }

/-- The superblock that run writes: block size 8 sectors, bucket size
1 sector - violating bucket size >= block size. -/
def sbC5 : cache_sb :=
  { offset := 8, version := 0, magic := true, set_uuid := 0, label := ""
    block_size := 8, bucket_size := 1, nbuckets := 256, nr_in_set := 1
    first_bucket := 24 }

/-- Claim C5 (code bug, evaluated at the failing input): the argument
flow accepts `-b 512` with no `-w` on a device of native block size 8
sectors, because the `bucket_size < block_size` check (make.c:714) runs
before the block size is derived from the devices (make.c:720-728); the
accepted plan has block size 8 > bucket size 1, the derivation queried
the device, and the subsequent cache format proceeds and writes a
superblock with bucket size 1 < block size 8 - contradicting the claim
that such a configuration is fatal before any device is touched. -/
theorem claim_C5_bug :
    (make_bcache ⟨0, 1, [8], []⟩).1 =
      Except.ok ({ block_size := 8, bucket_size := 1, cacheDevs := [8]
                   backingDevs := [] } : MkPlan) ∧
    (make_bcache ⟨0, 1, [8], []⟩).2 = [8] ∧
    (write_sb devC5 sbcC5 false false false).outcome = Except.ok sbC5 ∧
    sbC5.bucket_size < sbC5.block_size :=
  ⟨rfl, rfl, rfl, by decide⟩

/-- Accessor: the record a `write_sb_ioctl` run submitted (a dummy when
nothing was submitted; only used under an `isSome` hypothesis). -/
def submittedRecord (r : IoctlResult) : bch_register_device :=
  match r.submitted with
  | some cmd => cmd
  | none => ⟨"", {}⟩

/-- Claim C7: for every backing device registered through the control
channel whose configured data offset (after the zoned adjustment) is
non-zero, the warning is produced, the offset is forced to zero before
the superblock is built (make.c:750-755), and the record submitted
through the channel has data-offset field 0. -/
theorem claim_C7 (zonedAdjust : Nat → Nat) (d : IoctlDevice)
    (name : String) (sbc : sb_context)
    (h1 : d.found = true) (h2 : d.statOk = true) (h3 : d.isBlk = true)
    (h4 : d.ctrlOpenOk = true)
    (h5 : zonedAdjust sbc.data_offset ≠ 0) :
    (backing_ioctl_step zonedAdjust d name sbc).1 = true ∧
    ((backing_ioctl_step zonedAdjust d name sbc).2.submitted).isSome = true ∧
    (submittedRecord (backing_ioctl_step zonedAdjust d name sbc).2).sb.data_offset =
      0 := by
  unfold backing_ioctl_step write_sb_ioctl
  refine ⟨by simp [bne_iff_ne, h5], ?_, ?_⟩ <;>
  · unfold write_sb_common
    by_cases hio : d.ioctlOk = true <;>
      simp [h1, h2, h3, h4, hio, SB_IS_BDEV, BCACHE_SB_VERSION_BDEV,
        BCACHE_SB_VERSION_CDEV, BCACHE_SB_VERSION_BDEV_WITH_OFFSET,
        BDEV_DATA_START_DEFAULT, submittedRecord]

/-- A valid block device reachable through the control channel. -/
def idev0 : IoctlDevice :=
  { found := true, sizeSectors := 1048576, statOk := true, isBlk := true
    ctrlOpenOk := true, zoned := false, ioctlOk := true }

/-- Witness for C7 at a concrete input: an adjusted offset of 32 sectors
triggers the warning and the submitted record carries offset 0. -/
theorem claim_C7_witness :
    (backing_ioctl_step (fun _ => 32) idev0 "sdb" sbc0).1 = true ∧
    ((backing_ioctl_step (fun _ => 32) idev0 "sdb" sbc0).2.submitted).isSome =
      true ∧
    (submittedRecord
      (backing_ioctl_step (fun _ => 32) idev0 "sdb" sbc0).2).sb.data_offset =
      0 :=
  claim_C7 (fun _ => 32) idev0 "sdb" sbc0 rfl rfl rfl rfl (by decide)

/-- Claim C10: supplying more than one cache device is fatal before any
device is opened (make.c:709-712 precede every `get_blocksize` query),
while a single cache device and any number of backing devices pass
validation, the plan formatting each backing device in command order
(make.c:747-760). -/
theorem claim_C10 :
    (∀ a : MkArgs, 1 < a.cacheDevs.length →
       make_bcache a = (Except.error MkError.tooManyCacheDevices, [])) ∧
    (∀ a : MkArgs, a.cacheDevs.length ≤ 1 → a.backingDevs ≠ [] →
       ¬ a.bucket_size < a.block_size →
       mkOk (make_bcache a) = true ∧
       (mkPlan (make_bcache a)).backingDevs = a.backingDevs ∧
       (mkPlan (make_bcache a)).cacheDevs = a.cacheDevs) := by
  constructor
  · intro a h
    have hne : ¬ a.cacheDevs = [] := by
      intro hc
      rw [hc] at h
      simp at h
    simp [make_bcache, hne, h]
  · intro a h1 h2 h3
    have hno : ¬ 1 < a.cacheDevs.length := by omega
    by_cases hbs : a.block_size = 0 <;>
      simp [make_bcache, h2, hno, h3, hbs, mkOk, mkPlan]

/-- Witness for C10 at concrete inputs: two cache devices are rejected
with nothing queried; one cache device plus two backing devices pass
with both backing devices planned in order. -/
theorem claim_C10_witness :
    make_bcache ⟨0, 1024, [8, 8], []⟩ =
      (Except.error MkError.tooManyCacheDevices, []) ∧
    (mkOk (make_bcache ⟨0, 1024, [8], [4, 8]⟩) = true ∧
     (mkPlan (make_bcache ⟨0, 1024, [8], [4, 8]⟩)).backingDevs = [4, 8] ∧
     (mkPlan (make_bcache ⟨0, 1024, [8], [4, 8]⟩)).cacheDevs = [8]) :=
  ⟨claim_C10.1 ⟨0, 1024, [8, 8], []⟩ (by decide),
   claim_C10.2 ⟨0, 1024, [8], [4, 8]⟩ (by decide) (by decide) (by decide)⟩

/-- Claim C6: for every backing-device format where writeback was
requested and the target is classified as a zoned device, the resulting
superblock cache mode is writethrough (not writeback) and an
informational notice is emitted; if the target is not zoned and
writeback was requested, the cache mode is writeback; if writeback was
not requested, the cache mode is writethrough (make.c:270-285). -/
theorem claim_C6 :
    (∀ (sbc : sb_context) (nb : Nat), sbc.writeback = true →
       buildOk (write_sb_common true sbc true nb) = true ∧
       (built (write_sb_common true sbc true nb)).cache_mode =
         CACHE_MODE_WRITETHROUGH ∧
       (write_sb_common true sbc true nb).2 = true) ∧
    (∀ (sbc : sb_context) (nb : Nat), sbc.writeback = true →
       buildOk (write_sb_common false sbc true nb) = true ∧
       (built (write_sb_common false sbc true nb)).cache_mode =
         CACHE_MODE_WRITEBACK ∧
       (write_sb_common false sbc true nb).2 = false) ∧
    (∀ (zoned : Bool) (sbc : sb_context) (nb : Nat), sbc.writeback = false →
       buildOk (write_sb_common zoned sbc true nb) = true ∧
       (built (write_sb_common zoned sbc true nb)).cache_mode =
         CACHE_MODE_WRITETHROUGH ∧
       (write_sb_common zoned sbc true nb).2 = false) := by
  refine ⟨?_, ?_, ?_⟩
  · intro sbc nb hw
    unfold write_sb_common
    by_cases ho : sbc.data_offset = BDEV_DATA_START_DEFAULT <;>
      simp [SB_IS_BDEV, BCACHE_SB_VERSION_BDEV, BCACHE_SB_VERSION_CDEV,
        BCACHE_SB_VERSION_BDEV_WITH_OFFSET, CACHE_MODE_WRITEBACK,
        CACHE_MODE_WRITETHROUGH, hw, ho, buildOk, built]
  · intro sbc nb hw
    unfold write_sb_common
    by_cases ho : sbc.data_offset = BDEV_DATA_START_DEFAULT <;>
      simp [SB_IS_BDEV, BCACHE_SB_VERSION_BDEV, BCACHE_SB_VERSION_CDEV,
        BCACHE_SB_VERSION_BDEV_WITH_OFFSET, CACHE_MODE_WRITEBACK,
        CACHE_MODE_WRITETHROUGH, hw, ho, buildOk, built]
  · intro zoned sbc nb hw
    unfold write_sb_common
    by_cases ho : sbc.data_offset = BDEV_DATA_START_DEFAULT <;>
      simp [SB_IS_BDEV, BCACHE_SB_VERSION_BDEV, BCACHE_SB_VERSION_CDEV,
        BCACHE_SB_VERSION_BDEV_WITH_OFFSET, CACHE_MODE_WRITEBACK,
        CACHE_MODE_WRITETHROUGH, hw, ho, buildOk, built]

/-- Witness for C6 at concrete inputs: a zoned backing device with
writeback requested is downgraded with a notice; a non-zoned one keeps
writeback; without the request the mode is writethrough. -/
theorem claim_C6_witness :
    (buildOk (write_sb_common true { sbc0 with writeback := true } true 0) = true ∧
     (built (write_sb_common true { sbc0 with writeback := true } true 0)).cache_mode =
       CACHE_MODE_WRITETHROUGH ∧
     (write_sb_common true { sbc0 with writeback := true } true 0).2 = true) ∧
    (buildOk (write_sb_common false { sbc0 with writeback := true } true 0) = true ∧
     (built (write_sb_common false { sbc0 with writeback := true } true 0)).cache_mode =
       CACHE_MODE_WRITEBACK ∧
     (write_sb_common false { sbc0 with writeback := true } true 0).2 = false) ∧
    (buildOk (write_sb_common false sbc0 true 0) = true ∧
     (built (write_sb_common false sbc0 true 0)).cache_mode =
       CACHE_MODE_WRITETHROUGH ∧
     (write_sb_common false sbc0 true 0).2 = false) :=
  ⟨claim_C6.1 { sbc0 with writeback := true } 0 rfl,
   claim_C6.2.1 { sbc0 with writeback := true } 0 rfl,
   claim_C6.2.2 false sbc0 0 rfl⟩

/-- Claim C8: for every backing-device superblock built by the builder,
a configured data offset different from the default start offset yields
the offset-aware version and stores the offset; a default offset keeps
the base backing version and stores no explicit offset (the field keeps
its zeroed value) (make.c:256-259 and make.c:287-291). -/
theorem claim_C8 :
    (∀ (zoned : Bool) (sbc : sb_context) (nb : Nat),
       sbc.data_offset ≠ BDEV_DATA_START_DEFAULT →
       buildOk (write_sb_common zoned sbc true nb) = true ∧
       (built (write_sb_common zoned sbc true nb)).version =
         BCACHE_SB_VERSION_BDEV_WITH_OFFSET ∧
       (built (write_sb_common zoned sbc true nb)).data_offset =
         sbc.data_offset) ∧
    (∀ (zoned : Bool) (sbc : sb_context) (nb : Nat),
       sbc.data_offset = BDEV_DATA_START_DEFAULT →
       buildOk (write_sb_common zoned sbc true nb) = true ∧
       (built (write_sb_common zoned sbc true nb)).version =
         BCACHE_SB_VERSION_BDEV ∧
       (built (write_sb_common zoned sbc true nb)).data_offset = 0) := by
  constructor
  · intro zoned sbc nb ho
    unfold write_sb_common
    simp [SB_IS_BDEV, BCACHE_SB_VERSION_BDEV, BCACHE_SB_VERSION_CDEV,
      BCACHE_SB_VERSION_BDEV_WITH_OFFSET, ho, buildOk, built]
  · intro zoned sbc nb ho
    unfold write_sb_common
    simp [SB_IS_BDEV, BCACHE_SB_VERSION_BDEV, BCACHE_SB_VERSION_CDEV,
      BCACHE_SB_VERSION_BDEV_WITH_OFFSET, ho, buildOk, built]

/-- Witness for C8 at concrete inputs: a backing device configured with
offset 1024 sectors gets version 4 and offset 1024; one configured with
the default 16 keeps version 1 and field 0. -/
theorem claim_C8_witness :
    (buildOk (write_sb_common false { sbc0 with data_offset := 1024 } true 0) = true ∧
     (built (write_sb_common false { sbc0 with data_offset := 1024 } true 0)).version =
       BCACHE_SB_VERSION_BDEV_WITH_OFFSET ∧
     (built (write_sb_common false { sbc0 with data_offset := 1024 } true 0)).data_offset =
       ({ sbc0 with data_offset := 1024 } : sb_context).data_offset) ∧
    (buildOk (write_sb_common false sbc0 true 0) = true ∧
     (built (write_sb_common false sbc0 true 0)).version =
       BCACHE_SB_VERSION_BDEV ∧
     (built (write_sb_common false sbc0 true 0)).data_offset = 0) :=
  ⟨claim_C8.1 false { sbc0 with data_offset := 1024 } 0 (by decide),
   claim_C8.2 false sbc0 0 rfl⟩

/-- Claim C9: for every cache-device superblock built by the builder
with bucket size B sectors, the first-usable-bucket index is
(23 / B) + 1, where 23 is (SB_SECTOR + SB_SIZE) - 1 sectors, in exact
integer arithmetic; the stored bucket size is the configured one
(make.c:307-312). -/
theorem claim_C9 (zoned : Bool) (sbc : sb_context) (nb : Nat)
    (h : buildOk (write_sb_common zoned sbc false nb) = true) :
    (built (write_sb_common zoned sbc false nb)).first_bucket =
      23 / sbc.bucket_size + 1 ∧
    (built (write_sb_common zoned sbc false nb)).bucket_size =
      sbc.bucket_size := by
  by_cases hnb : nb < 128
  · rw [write_sb_common_cdev_fail zoned sbc nb hnb] at h
    simp [buildOk] at h
  · rw [write_sb_common_cdev zoned sbc nb hnb]
    simp [built]

/-- Witness for C9: a cache superblock built with bucket size 1024 and
4096 buckets has first bucket (23 / 1024) + 1 = 1. -/
theorem claim_C9_witness :
    buildOk (write_sb_common false sbc0 false 4096) = true ∧
    (built (write_sb_common false sbc0 false 4096)).first_bucket =
      23 / sbc0.bucket_size + 1 ∧
    (built (write_sb_common false sbc0 false 4096)).bucket_size =
      sbc0.bucket_size :=
  ⟨by decide, (claim_C9 false sbc0 4096 (by decide)).1,
   (claim_C9 false sbc0 4096 (by decide)).2⟩

end BcacheMake
